import Mathlib

/-!
Verification of the sensor-acquisition and power-cycle orchestration core of
the esp32-homecontrol firmware, as a shallow embedding in Lean.

Sources embedded here:
- src/dht11.rs        : the DHT11 one-wire frame decoder (checksum validation
                        and measurement construction).
- src/sensors_task.rs : sample collection, battery charging-voltage filter and
                        the outlier-trimming aggregator.
- src/domain.rs       : derived qualitative readings (moisture level,
                        water level) and the sensor data model.
- src/update_task.rs  : the reporting task's pump interlock and publish gate.
- src/main.rs         : the boot-counter update in RTC-persisted state.

Machine integers are modelled as Nat with explicit reductions modulo 2 ^ w at
the operations where the Rust code can wrap (wrapping_add on u8, the u32
accumulator, the u16 scaling multiply, the u32 boot counter under the
release-profile wrapping semantics the firmware is built with).
-/

/- ===================== dht11.rs ===================== -/

/-- Error type of the DHT11 driver (src/dht11.rs lines 10-18); the GPIO error
payload is irrelevant to the decode logic and is dropped. -/
inductive DhtError where
  | Timeout
  | CrcMismatch
  | Gpio
deriving DecidableEq, Repr

/-- Result of a DHT11 reading (src/dht11.rs lines 27-33). -/
structure Measurement where
  temperature : Nat
  humidity : Nat
deriving DecidableEq, Repr

/-- Wrapping u8 addition, the semantics of u8::wrapping_add. -/
def u8add (x y : Nat) : Nat := (x + y) % 256

/-- Embeds the tail of Dht11::read (src/dht11.rs lines 62-78) acting on the
five frame bytes d0..d4 that the bit loop (lines 55-60) has packed MSB-first:
the checksum is the wrapping u8 sum of bytes 0-3, a mismatch aborts with
CrcMismatch, and on success the Measurement takes humidity from data[0] and
temperature from data[1]. -/
def dht11_read (d0 d1 d2 d3 d4 : Nat) : Except DhtError Measurement :=
  let crc := u8add (u8add (u8add d0 d1) d2) d3
  if crc ≠ d4 then
    Except.error DhtError.CrcMismatch
  else
    Except.ok { temperature := d1, humidity := d0 }

/- ===================== sensors_task.rs: aggregator ===================== -/

/-- Embeds calculate_average (src/sensors_task.rs lines 366-383) for samples of
an unsigned type with values in [0, B): slices of length at most 2 yield None;
otherwise the slice is sorted ascending (sort_unstable, modelled by an
ascending insertion sort, extensionally the same sort on Nat), the first and
last element are dropped, the rest is summed in a u32 accumulator (modelled
with an explicit reduction modulo 2 ^ 32), divided by the remaining length via
checked_div (None on a zero divisor), and narrowed back with try_into, which
succeeds exactly when the quotient is below B. -/
def calculate_average (B : Nat) (samples : List Nat) : Option Nat :=
  if samples.length ≤ 2 then
    none
  else
    let sorted := List.insertionSort (· ≤ ·) samples
    let trimmed := (sorted.drop 1).take (sorted.length - 2)
    let sum := trimmed.foldl (fun acc x => (acc + x) % 2 ^ 32) 0
    if trimmed.length = 0 then
      none
    else
      let avg := sum / trimmed.length
      if avg < B then some avg else none

/- ===================== sensors_task.rs: battery filter ===================== -/

/-- USB charging-voltage threshold in millivolts (src/sensors_task.rs line 25). -/
def USB_CHARGING_VOLTAGE : Nat := 4100

/-- Samples taken per acquisition cycle (src/sensors_task.rs line 29). -/
def SENSOR_SAMPLE_COUNT : Nat := 5

/-- Push onto a heapless Vec of the given capacity: the push is dropped when
the vector is full (the Rust code logs and continues on a failed push). -/
def vecPush {α : Type} (cap : Nat) (v : List α) (x : α) : List α :=
  if v.length < cap then v ++ [x] else v

/-- Embeds read_battery_voltage (src/sensors_task.rs lines 218-233): the raw
ADC sample (None when the ADC read failed) is scaled by 2 (u16 arithmetic),
kept when strictly below USB_CHARGING_VOLTAGE and discarded otherwise. -/
def read_battery_voltage (raw : Option Nat) : Option Nat :=
  match raw with
  | none => none
  | some sample =>
    let value := sample * 2 % 2 ^ 16
    if value < USB_CHARGING_VOLTAGE then some value else none

/-- Embeds the battery arm of the sampling loop in collect_all_sensor_data
(src/sensors_task.rs lines 120-170): one raw ADC result per iteration is
passed through read_battery_voltage and pushed into the bounded sample vector
only when a value survives the filter. -/
def collect_battery_samples (raws : List (Option Nat)) : List Nat :=
  raws.foldl
    (fun acc r =>
      match read_battery_voltage r with
      | some v => vecPush SENSOR_SAMPLE_COUNT acc v
      | none => acc)
    []

/- ===================== domain.rs ===================== -/

/-- Qualitative soil moisture (src/domain.rs lines 35-40). -/
inductive MoistureLevel where
  | Wet
  | Moist
  | Dry
deriving DecidableEq, Repr

/-- Drainage water level (src/domain.rs lines 68-72). -/
inductive WaterLevel where
  | Full
  | Empty
deriving DecidableEq, Repr

/-- Raw water-level threshold (src/domain.rs line 7). -/
def WATER_LEVEL_THRESHOLD : Nat := 3000

/-- Calibrated fully-wet raw value (src/domain.rs line 9). -/
def MOISTURE_MIN : Nat := 800

/-- Calibrated fully-dry raw value (src/domain.rs line 11). -/
def MOISTURE_MAX : Nat := 2150

/-- Embeds clamp_soil_moisture (src/domain.rs lines 191-193), which is
value.clamp(MOISTURE_MIN, MOISTURE_MAX). -/
def clamp_soil_moisture (value : Nat) : Nat :=
  if value < MOISTURE_MIN then MOISTURE_MIN
  else if value > MOISTURE_MAX then MOISTURE_MAX
  else value

/-- Embeds the From u16 conversion for MoistureLevel (src/domain.rs lines
52-64): the raw value is clamped, normalized wetness is
(MOISTURE_MAX - clamped) / (MOISTURE_MAX - MOISTURE_MIN), and the two
thresholds 0.8 and 0.15 classify Wet / Dry / Moist. The source computes the
quotient in f32; it is modelled in ℚ, which decides every comparison
identically: the candidate boundary quotients n / 1350 closest to the
thresholds are more than 10 ^ -4 away from 4/5 and 3/20, far outside both the
f32 rounding error of the quotient and the gap between the f32 literals and
the exact thresholds (both below 2 ^ -23). -/
def moistureLevelFromRaw (value : Nat) : MoistureLevel :=
  let clamped := clamp_soil_moisture value
  let wetness : ℚ := ((MOISTURE_MAX - clamped : Nat) : ℚ)
      / ((MOISTURE_MAX - MOISTURE_MIN : Nat) : ℚ)
  if wetness > 8 / 10 then MoistureLevel.Wet
  else if wetness < 15 / 100 then MoistureLevel.Dry
  else MoistureLevel.Moist

/-- Embeds the From u16 conversion for WaterLevel (src/domain.rs lines 83-91):
raw values strictly below the threshold classify Empty, the rest Full. -/
def waterLevelFromRaw (value : Nat) : WaterLevel :=
  if value < WATER_LEVEL_THRESHOLD then WaterLevel.Empty else WaterLevel.Full

/-- Sensor readings (src/domain.rs lines 95-103). The SoilMoistureRaw payload
carries the clamped raw value of the SoilMoistureRawLevel newtype. -/
inductive Sensor where
  | WaterLevel (w : WaterLevel)
  | AirTemperature (v : Nat)
  | AirHumidity (v : Nat)
  | SoilMoisture (m : MoistureLevel)
  | BatteryVoltage (v : Nat)
  | SoilMoistureRaw (v : Nat)
  | PumpTrigger (b : Bool)
deriving DecidableEq, Repr

/-- One batch of readings (src/domain.rs lines 18-22): a heapless Vec of
capacity 7 plus the publish flag. -/
structure SensorData where
  data : List Sensor
  publish : Bool
deriving DecidableEq, Repr

/- ===================== sensors_task.rs: build_sensor_data ===================== -/

/-- Boots between pump trigger events (src/sensors_task.rs line 24). -/
def PUMP_TRIGGER_INTERVAL : Nat := 10

/-- Embeds build_sensor_data (src/sensors_task.rs lines 257-363): each channel
is aggregated with calculate_average (bound 2 ^ 8 for the u8 air channels,
2 ^ 16 for the u16 channels) and pushed in source order into the capacity-7
vector when an aggregate exists; the water aggregate is converted to a
WaterLevel, the soil aggregate is pushed twice (clamped raw, then the
qualitative level), the pump trigger is boot_count.is_multiple_of(10), and
publish is set to whether the battery sample vector is nonempty. -/
def build_sensor_data (hum temp soil batt water : List Nat) (boot_count : Nat) :
    SensorData :=
  let d1 : List Sensor :=
    match calculate_average (2 ^ 8) hum with
    | some a => vecPush 7 [] (Sensor.AirHumidity a)
    | none => []
  let d2 :=
    match calculate_average (2 ^ 8) temp with
    | some a => vecPush 7 d1 (Sensor.AirTemperature a)
    | none => d1
  let d3 :=
    match calculate_average (2 ^ 16) water with
    | some a => vecPush 7 d2 (Sensor.WaterLevel (waterLevelFromRaw a))
    | none => d2
  let d4 :=
    match calculate_average (2 ^ 16) soil with
    | some a =>
        vecPush 7 (vecPush 7 d3 (Sensor.SoilMoistureRaw (clamp_soil_moisture a)))
          (Sensor.SoilMoisture (moistureLevelFromRaw a))
    | none => d3
  let d5 := vecPush 7 d4 (Sensor.PumpTrigger (boot_count % PUMP_TRIGGER_INTERVAL == 0))
  let d6 :=
    match calculate_average (2 ^ 16) batt with
    | some a => vecPush 7 d5 (Sensor.BatteryVoltage a)
    | none => d5
  { data := d6, publish := !batt.isEmpty }

/- ===================== update_task.rs ===================== -/

/-- Embeds the allow_enable_pump computation of publish_sensor_data
(src/update_task.rs lines 279-282): the pump may be enabled only when some
entry is a WaterLevel reading of Empty. -/
def allow_enable_pump (data : List Sensor) : Bool :=
  data.any fun entry =>
    match entry with
    | Sensor.WaterLevel WaterLevel.Empty => true
    | _ => false

/-- Embeds the for_each over the batch in publish_sensor_data
(src/update_task.rs lines 284-294): for every PumpTrigger entry, the state
pushed into the ENABLE_PUMP signal is the trigger value when
allow_enable_pump holds and false otherwise; the list records the pushed
states in order. -/
def pump_signals (data : List Sensor) : List Bool :=
  data.filterMap fun entry =>
    match entry with
    | Sensor.PumpTrigger enabled =>
        some (if allow_enable_pump data then enabled else false)
    | _ => none

/-- MQTT topic key of a sensor (src/domain.rs lines 145-155). -/
def sensor_topic (s : Sensor) : String :=
  match s with
  | Sensor.AirTemperature _ => "temperature"
  | Sensor.AirHumidity _ => "humidity"
  | Sensor.SoilMoisture _ => "moisture"
  | Sensor.WaterLevel _ => "waterlevel"
  | Sensor.BatteryVoltage _ => "batteryvoltage"
  | Sensor.SoilMoistureRaw _ => "moistureraw"
  | Sensor.PumpTrigger _ => "pumptrigger"

/-- Rendered value of a sensor (src/domain.rs lines 171-181). -/
def sensor_value (s : Sensor) : String :=
  match s with
  | Sensor.AirTemperature v => toString v
  | Sensor.AirHumidity v => toString v
  | Sensor.SoilMoisture MoistureLevel.Wet => "Wet"
  | Sensor.SoilMoisture MoistureLevel.Moist => "Moist"
  | Sensor.SoilMoisture MoistureLevel.Dry => "Dry"
  | Sensor.WaterLevel WaterLevel.Full => "Full"
  | Sensor.WaterLevel WaterLevel.Empty => "Empty"
  | Sensor.BatteryVoltage v => toString v
  | Sensor.SoilMoistureRaw v => toString v
  | Sensor.PumpTrigger b => toString b

/-- Embeds the reading loop of publish_sensor_data (src/update_task.rs lines
296-319): one broker message per entry of the batch, modelled as its
(topic key, rendered value) pair. -/
def publish_sensor_data_messages (sd : SensorData) : List (String × String) :=
  sd.data.map fun s => (sensor_topic s, sensor_value s)

/-- Embeds the publish gate of handle_sensor_data (src/update_task.rs lines
222-227): the batch readings are forwarded to the broker only when the publish
flag is set (discovery/config messages and the display path are outside this
model). -/
def handle_sensor_data_messages (sd : SensorData) : List (String × String) :=
  if sd.publish then publish_sensor_data_messages sd else []

/- ===================== main.rs ===================== -/

/-- The two RTC-fast-memory cells persisted across deep sleep
(src/main.rs lines 62-70). -/
structure RtcState where
  boot_count : Nat
  discovery_sent : Bool
deriving DecidableEq, Repr

/-- Embeds the unconditional boot-counter update at the top of main
(src/main.rs lines 78-80): BOOT_COUNT.get(), then BOOT_COUNT.set of the
successor, with u32 wrapping semantics (the firmware is built with the
release profile, where integer addition wraps). The discovery flag is not
touched. -/
def main_boot_step (s : RtcState) : RtcState :=
  let boot_count := s.boot_count
  { s with boot_count := (boot_count + 1) % 2 ^ 32 }

/- ===================== helper lemmas ===================== -/

/-- Membership after a bounded push comes from the old vector or is the pushed
element. -/
theorem mem_vecPush {α : Type} {cap : Nat} {l : List α} {x y : α}
    (h : y ∈ vecPush cap l x) : y ∈ l ∨ y = x := by
  unfold vecPush at h
  split at h
  · rcases List.mem_append.mp h with h1 | h1
    · exact Or.inl h1
    · exact Or.inr (List.mem_singleton.mp h1)
  · exact Or.inl h

/-- Values surviving the battery filter are below the charging threshold. -/
theorem read_battery_voltage_lt {r : Option Nat} {v : Nat}
    (h : read_battery_voltage r = some v) : v < USB_CHARGING_VOLTAGE := by
  cases r with
  | none => exact Option.noConfusion h
  | some s =>
    have h2 : (if s * 2 % 2 ^ 16 < USB_CHARGING_VOLTAGE
        then some (s * 2 % 2 ^ 16) else none) = some v := h
    split at h2
    · rename_i hc
      exact Option.some.inj h2 ▸ hc
    · exact Option.noConfusion h2

/-- The reporting task may enable the pump exactly when the batch holds a
drainage reading of Empty. -/
theorem allow_enable_pump_iff (data : List Sensor) :
    allow_enable_pump data = true ↔ Sensor.WaterLevel WaterLevel.Empty ∈ data := by
  unfold allow_enable_pump
  rw [List.any_eq_true]
  constructor
  · rintro ⟨e, he, hp⟩
    cases e with
    | WaterLevel w =>
      cases w with
      | Full => exact Bool.noConfusion hp
      | Empty => exact he
    | AirTemperature v => exact Bool.noConfusion hp
    | AirHumidity v => exact Bool.noConfusion hp
    | SoilMoisture m => exact Bool.noConfusion hp
    | BatteryVoltage v => exact Bool.noConfusion hp
    | SoilMoistureRaw v => exact Bool.noConfusion hp
    | PumpTrigger b => exact Bool.noConfusion hp
  · intro h
    exact ⟨Sensor.WaterLevel WaterLevel.Empty, h, rfl⟩

/-- Every pushed pump state comes from a PumpTrigger entry, gated by
allow_enable_pump. -/
theorem pump_signals_mem {data : List Sensor} {b : Bool}
    (h : b ∈ pump_signals data) :
    ∃ t, Sensor.PumpTrigger t ∈ data ∧
      b = if allow_enable_pump data then t else false := by
  unfold pump_signals at h
  rw [List.mem_filterMap] at h
  obtain ⟨e, he, hfe⟩ := h
  cases e with
  | PumpTrigger t => exact ⟨t, he, (Option.some.inj hfe).symm⟩
  | WaterLevel w => exact Option.noConfusion hfe
  | AirTemperature v => exact Option.noConfusion hfe
  | AirHumidity v => exact Option.noConfusion hfe
  | SoilMoisture m => exact Option.noConfusion hfe
  | BatteryVoltage v => exact Option.noConfusion hfe
  | SoilMoistureRaw v => exact Option.noConfusion hfe

/-- Without an Empty drainage reading in the batch, every pushed pump state is
false. -/
theorem pump_signals_false_of_no_empty {data : List Sensor}
    (h : Sensor.WaterLevel WaterLevel.Empty ∉ data) :
    ∀ b ∈ pump_signals data, b = false := by
  intro b hb
  obtain ⟨t, _, rfl⟩ := pump_signals_mem hb
  rw [if_neg]
  intro hallow
  exact h ((allow_enable_pump_iff data).mp hallow)

/- ===================== claim theorems ===================== -/

/-- C1 (code bug): on the checksum-valid frame [55, 7, 21, 3, 86],
Dht11::read succeeds but builds the Measurement with temperature from byte 1
of the frame (here 7, the humidity-decimal byte of the DHT11 protocol) rather
than byte 2 (here 21, the temperature byte named by the spec and by the field
documentation), so the claimed result (humidity = byte 0, temperature =
byte 2) is not returned. -/
theorem dht11_read_reports_byte1_as_temperature :
    dht11_read 55 7 21 3 86 = Except.ok { temperature := 7, humidity := 55 } ∧
    dht11_read 55 7 21 3 86 ≠ Except.ok { temperature := 21, humidity := 55 } := by
  refine ⟨rfl, fun h => ?_⟩
  have h1 : Measurement.mk 7 55 = Measurement.mk 21 55 := Except.ok.inj h
  have h2 : (7 : Nat) = 21 := congrArg Measurement.temperature h1
  exact absurd h2 (by decide)

/-- C6: a received 5-byte frame whose byte 4 differs from the wrapping sum of
bytes 0-3 makes Dht11::read fail with CrcMismatch, a variant distinct from
Timeout. -/
theorem dht11_checksum_mismatch_is_crc_error (d0 d1 d2 d3 d4 : Nat)
    (h : (d0 + d1 + d2 + d3) % 256 ≠ d4) :
    dht11_read d0 d1 d2 d3 d4 = Except.error DhtError.CrcMismatch ∧
    DhtError.CrcMismatch ≠ DhtError.Timeout := by
  refine ⟨?_, by decide⟩
  unfold dht11_read u8add
  rw [if_pos]
  simpa only [Nat.mod_add_mod] using h

/-- Witness for C6 at a concrete mismatching frame. -/
theorem dht11_checksum_mismatch_is_crc_error_witness :
    dht11_read 1 2 3 4 255 = Except.error DhtError.CrcMismatch ∧
    DhtError.CrcMismatch ≠ DhtError.Timeout :=
  dht11_checksum_mismatch_is_crc_error 1 2 3 4 255 (by decide)

/-- C7: calculate_average returns None on every slice of length at most 2. -/
theorem calculate_average_too_few_samples (B : Nat) (samples : List Nat)
    (h : samples.length ≤ 2) : calculate_average B samples = none := by
  unfold calculate_average
  rw [if_pos h]

/-- Witness for C7 on a concrete two-element slice. -/
theorem calculate_average_too_few_samples_witness :
    ([7, 9] : List Nat).length ≤ 2 ∧ calculate_average 256 [7, 9] = none :=
  ⟨by decide, calculate_average_too_few_samples 256 [7, 9] (by decide)⟩

/-- C8: the boot step of main reads the persisted counter and stores back its
successor — an increment by exactly one below the u32 maximum, and a wrap to
zero at the maximum — without touching the discovery flag. -/
theorem boot_counter_increments_and_wraps (s : RtcState)
    (h : s.boot_count < 2 ^ 32) :
    ((main_boot_step s).boot_count = s.boot_count + 1 ∨
      (s.boot_count = 2 ^ 32 - 1 ∧ (main_boot_step s).boot_count = 0)) ∧
    (main_boot_step s).discovery_sent = s.discovery_sent := by
  refine ⟨?_, rfl⟩
  by_cases hc : s.boot_count = 2 ^ 32 - 1
  · refine Or.inr ⟨hc, ?_⟩
    show (s.boot_count + 1) % 2 ^ 32 = 0
    omega
  · refine Or.inl ?_
    show (s.boot_count + 1) % 2 ^ 32 = s.boot_count + 1
    exact Nat.mod_eq_of_lt (by omega)

/-- Witness for C8 at the u32 maximum, where the counter wraps to zero. -/
theorem boot_counter_increments_and_wraps_witness :
    ((main_boot_step (RtcState.mk (2 ^ 32 - 1) false)).boot_count
        = (RtcState.mk (2 ^ 32 - 1) false).boot_count + 1 ∨
      ((RtcState.mk (2 ^ 32 - 1) false).boot_count = 2 ^ 32 - 1 ∧
        (main_boot_step (RtcState.mk (2 ^ 32 - 1) false)).boot_count = 0)) ∧
    (main_boot_step (RtcState.mk (2 ^ 32 - 1) false)).discovery_sent
      = (RtcState.mk (2 ^ 32 - 1) false).discovery_sent :=
  boot_counter_increments_and_wraps (RtcState.mk (2 ^ 32 - 1) false) (by decide)

/-- C4: the battery path scales each raw sample by 2 and discards any scaled
value at or beyond the USB charging threshold before it is pushed into the
sample vector, so every sample that reaches aggregation is below the
threshold (the filter runs pre-aggregation). -/
theorem battery_filter_runs_before_aggregation :
    (∀ v : Nat, USB_CHARGING_VOLTAGE ≤ v * 2 % 2 ^ 16 →
      read_battery_voltage (some v) = none) ∧
    (∀ (raws : List (Option Nat)) (x : Nat),
      x ∈ collect_battery_samples raws → x < USB_CHARGING_VOLTAGE) := by
  constructor
  · intro v hv
    show (if v * 2 % 2 ^ 16 < USB_CHARGING_VOLTAGE
        then some (v * 2 % 2 ^ 16) else none) = none
    rw [if_neg (by omega)]
  · intro raws x hx
    suffices h : ∀ (rs : List (Option Nat)) (acc : List Nat),
        (∀ y ∈ acc, y < USB_CHARGING_VOLTAGE) →
        ∀ y ∈ List.foldl
          (fun acc r =>
            match read_battery_voltage r with
            | some v => vecPush SENSOR_SAMPLE_COUNT acc v
            | none => acc)
          acc rs, y < USB_CHARGING_VOLTAGE by
      exact h raws [] (by simp) x hx
    intro rs
    induction rs with
    | nil =>
      intro acc hacc y hy
      exact hacc y hy
    | cons r rt ih =>
      intro acc hacc y hy
      rw [List.foldl_cons] at hy
      cases hr : read_battery_voltage r with
      | none =>
        rw [hr] at hy
        exact ih _ hacc y hy
      | some v =>
        rw [hr] at hy
        refine ih _ ?_ y hy
        intro z hz
        rcases mem_vecPush hz with h1 | rfl
        · exact hacc z h1
        · exact read_battery_voltage_lt hr

/-- Witness for C4: the scaled sample 3000 * 2 = 6000 exceeds the threshold
and is discarded. -/
theorem battery_filter_runs_before_aggregation_witness :
    USB_CHARGING_VOLTAGE ≤ 3000 * 2 % 2 ^ 16 ∧
    read_battery_voltage (some 3000) = none :=
  ⟨by decide, battery_filter_runs_before_aggregation.1 3000 (by decide)⟩

/-- C10: a batch without any drainage WaterLevel reading only ever pushes a
false pump state, whatever the trigger value; more generally the pushed state
is true only when a WaterLevel reading of Empty is present in the same
batch. -/
theorem pump_disabled_without_empty_reading (data : List Sensor) :
    ((∀ w : WaterLevel, Sensor.WaterLevel w ∉ data) →
      ∀ b ∈ pump_signals data, b = false) ∧
    (∀ b ∈ pump_signals data, b = true → Sensor.WaterLevel WaterLevel.Empty ∈ data) := by
  constructor
  · intro hno b hb
    exact pump_signals_false_of_no_empty (hno WaterLevel.Empty) b hb
  · intro b hb hbt
    obtain ⟨t, ht, heq⟩ := pump_signals_mem hb
    subst hbt
    by_cases ha : allow_enable_pump data = true
    · exact (allow_enable_pump_iff data).mp ha
    · rw [if_neg ha] at heq
      exact Bool.noConfusion heq

/-- Witness for C10: a batch holding only a true PumpTrigger pushes false. -/
theorem pump_disabled_without_empty_reading_witness :
    (pump_signals [Sensor.PumpTrigger true]).getD 0 true = false :=
  (pump_disabled_without_empty_reading [Sensor.PumpTrigger true]).1
    (by intro w; cases w <;> decide)
    ((pump_signals [Sensor.PumpTrigger true]).getD 0 true)
    (by decide)

/-- C5: a built batch has publish set exactly when at least one battery sample
survived collection, and a batch with publish unset forwards no reading to the
broker. -/
theorem publish_gate_requires_battery_sample (hum temp soil water : List Nat)
    (raws : List (Option Nat)) (boot_count : Nat) :
    ((build_sensor_data hum temp soil (collect_battery_samples raws) water
        boot_count).publish = true ↔ collect_battery_samples raws ≠ []) ∧
    ((build_sensor_data hum temp soil (collect_battery_samples raws) water
        boot_count).publish = false →
      handle_sensor_data_messages
        (build_sensor_data hum temp soil (collect_battery_samples raws) water
          boot_count) = []) := by
  constructor
  · show (!(collect_battery_samples raws).isEmpty) = true ↔ _
    cases collect_battery_samples raws <;> simp
  · intro hp
    unfold handle_sensor_data_messages
    rw [hp]
    simp

/-- Witness for C5: a cycle whose only battery read failed yields an
unpublished batch that forwards nothing. -/
theorem publish_gate_requires_battery_sample_witness :
    ((build_sensor_data [] [] [] (collect_battery_samples [none]) []
        0).publish = true ↔ collect_battery_samples [none] ≠ []) ∧
    ((build_sensor_data [] [] [] (collect_battery_samples [none]) []
        0).publish = false →
      handle_sensor_data_messages
        (build_sensor_data [] [] [] (collect_battery_samples [none]) []
          0) = []) :=
  publish_gate_requires_battery_sample [] [] [] [] [none] 0

/-- Folding Nat addition reduced modulo 2 ^ 32 agrees with the exact sum as
long as the exact total fits in the accumulator. -/
theorem foldl_mod_sum (l : List Nat) (a : Nat) (h : a + l.sum < 2 ^ 32) :
    l.foldl (fun acc x => (acc + x) % 2 ^ 32) a = a + l.sum := by
  induction l generalizing a with
  | nil => simp
  | cons x t ih =>
    rw [List.sum_cons] at h ⊢
    rw [List.foldl_cons, Nat.mod_eq_of_lt (by omega), ih (a + x) (by omega)]
    omega

/-- In an ascending sorted list every element is at most the last one. -/
theorem sorted_le_getLast :
    ∀ (l : List Nat), l.Sorted (· ≤ ·) → ∀ (hne : l ≠ []) (x : Nat), x ∈ l →
      x ≤ l.getLast hne := by
  intro l
  induction l with
  | nil => intro _ hne; exact absurd rfl hne
  | cons a t ih =>
    intro hs hne x hx
    cases t with
    | nil =>
      have hxa : x = a := by simpa using hx
      subst hxa
      simp [List.getLast]
    | cons b u =>
      rw [List.getLast_cons (by simp : b :: u ≠ [])]
      rcases List.mem_cons.mp hx with rfl | hx2
      · exact List.rel_of_sorted_cons hs _ (List.getLast_mem (by simp : b :: u ≠ []))
      · exact ih hs.of_cons (by simp) x hx2

/-- C3: on a slice of at least 3 samples whose total fits the u32 accumulator,
calculate_average removes one instance of the minimum and one instance of the
maximum (lo and hi below bound every sample and the slice is a permutation of
lo :: hi :: rest) and returns exactly the truncating integer mean of the rest,
with None exactly when that mean does not fit below the sample type bound
B. -/
theorem calculate_average_is_trimmed_mean (B : Nat) (samples : List Nat)
    (h3 : 3 ≤ samples.length) (hsum : samples.sum < 2 ^ 32) :
    ∃ lo hi rest, samples.Perm (lo :: hi :: rest) ∧
      (∀ x ∈ samples, lo ≤ x ∧ x ≤ hi) ∧
      calculate_average B samples =
        (if rest.sum / rest.length < B then some (rest.sum / rest.length)
          else none) := by
  have hperm : (List.insertionSort (· ≤ ·) samples).Perm samples :=
    List.perm_insertionSort _ _
  have hsorted : (List.insertionSort (· ≤ ·) samples).Sorted (· ≤ ·) :=
    List.sorted_insertionSort _ _
  obtain ⟨a, t, hst⟩ := List.exists_cons_of_ne_nil
    (show List.insertionSort (· ≤ ·) samples ≠ [] by
      intro h0
      have := hperm.length_eq
      rw [h0] at this
      simp at this
      omega)
  rw [hst] at hperm hsorted
  have hlen2 : t.length + 1 = samples.length := by
    have := hperm.length_eq
    simpa using this
  have htne : t ≠ [] := by
    intro h0
    rw [h0] at hlen2
    simp at hlen2
    omega
  refine ⟨a, t.getLast htne, t.dropLast, ?_, ?_, ?_⟩
  · have h1 : t.Perm (t.getLast htne :: t.dropLast) := by
      conv_lhs => rw [← List.dropLast_append_getLast htne]
      exact List.perm_append_singleton _ _
    exact hperm.symm.trans (h1.cons a)
  · intro x hx
    have hxs : x ∈ a :: t := hperm.mem_iff.mpr hx
    constructor
    · rcases List.mem_cons.mp hxs with rfl | hx2
      · exact le_refl x
      · exact List.rel_of_sorted_cons hsorted x hx2
    · have h2 := sorted_le_getLast (a :: t) hsorted (by simp) x hxs
      rwa [List.getLast_cons htne] at h2
  · have e1 : a + t.sum = samples.sum := by
      have := hperm.sum_eq
      simpa using this
    have e2 : t.dropLast.sum + t.getLast htne = t.sum := by
      conv_rhs => rw [← List.dropLast_append_getLast htne]
      rw [List.sum_append]
      simp
    have hl1 : t.dropLast.length = t.length - 1 := by simp
    unfold calculate_average
    rw [if_neg (by omega)]
    simp only [hst]
    have htr : ((a :: t).drop 1).take ((a :: t).length - 2)
        = List.take (t.length - 1) t := by
      simp only [List.drop_succ_cons, List.drop_zero, List.length_cons]
      rw [show t.length + 1 - 2 = t.length - 1 by omega]
    rw [htr, ← List.dropLast_eq_take]
    rw [if_neg (by omega)]
    rw [foldl_mod_sum _ 0 (by omega)]
    rw [Nat.zero_add]

/-- Witness for C3 on the slice [5, 1, 9]: the trimmed mean is 5. -/
theorem calculate_average_is_trimmed_mean_witness :
    calculate_average 256 [5, 1, 9] = some 5 ∧
    (∃ lo hi rest, ([5, 1, 9] : List Nat).Perm (lo :: hi :: rest) ∧
      (∀ x ∈ ([5, 1, 9] : List Nat), lo ≤ x ∧ x ≤ hi) ∧
      calculate_average 256 [5, 1, 9] =
        (if rest.sum / rest.length < 256 then some (rest.sum / rest.length)
          else none)) :=
  ⟨by decide,
    calculate_average_is_trimmed_mean 256 [5, 1, 9] (by decide) (by decide)⟩

/-- A WaterLevel entry of a built batch can only come from the single push of
the aggregated drainage reading. -/
theorem waterlevel_of_mem_build {hum temp soil batt water : List Nat}
    {boot_count : Nat} {w : WaterLevel}
    (h : Sensor.WaterLevel w
      ∈ (build_sensor_data hum temp soil batt water boot_count).data) :
    ∃ a, calculate_average (2 ^ 16) water = some a ∧ w = waterLevelFromRaw a := by
  unfold build_sensor_data at h
  rcases hh : calculate_average (2 ^ 8) hum with _ | ah <;>
  rcases ht : calculate_average (2 ^ 8) temp with _ | av <;>
  rcases hw : calculate_average (2 ^ 16) water with _ | aw <;>
  rcases hs : calculate_average (2 ^ 16) soil with _ | am <;>
  rcases hb : calculate_average (2 ^ 16) batt with _ | ab <;>
  simp only [hh, ht, hw, hs, hb] at h <;>
  simp [vecPush] at h <;>
  exact ⟨aw, rfl, h⟩

/-- C2: when a built batch carries a true PumpTrigger together with a drainage
WaterLevel reading of Full, every pump state pushed into the signal by the
reporting task is false — the drainage-full interlock overrides the
trigger. -/
theorem pump_interlock_overrides_trigger (hum temp soil batt water : List Nat)
    (boot_count : Nat)
    (htrig : Sensor.PumpTrigger true
      ∈ (build_sensor_data hum temp soil batt water boot_count).data)
    (hfull : Sensor.WaterLevel WaterLevel.Full
      ∈ (build_sensor_data hum temp soil batt water boot_count).data) :
    ∀ b ∈ pump_signals
        (build_sensor_data hum temp soil batt water boot_count).data,
      b = false := by
  apply pump_signals_false_of_no_empty
  intro hempty
  obtain ⟨a1, he1, hv1⟩ := waterlevel_of_mem_build hfull
  obtain ⟨a2, he2, hv2⟩ := waterlevel_of_mem_build hempty
  have ha : a1 = a2 := by
    rw [he1] at he2
    exact Option.some.inj he2
  subst ha
  rw [← hv1] at hv2
  exact WaterLevel.noConfusion hv2

/-- Witness for C2: drainage samples reading Full together with the
boot-counter trigger firing still push a false pump state. -/
theorem pump_interlock_overrides_trigger_witness :
    (pump_signals
        (build_sensor_data [] [] [] [] [3000, 3000, 3000] 0).data).getD 0 true
      = false :=
  pump_interlock_overrides_trigger [] [] [] [] [3000, 3000, 3000] 0
    (by decide) (by decide)
    ((pump_signals
        (build_sensor_data [] [] [] [] [3000, 3000, 3000] 0).data).getD 0 true)
    (by decide)

/-- Clamping fixes every value already inside the calibrated range. -/
theorem clamp_soil_moisture_of_mem (x : Nat) (h1 : MOISTURE_MIN ≤ x)
    (h2 : x ≤ MOISTURE_MAX) : clamp_soil_moisture x = x := by
  unfold clamp_soil_moisture
  rw [if_neg (by omega), if_neg (by omega)]

/-- The clamped value always lies in the calibrated range. -/
theorem clamp_soil_moisture_bounds (v : Nat) :
    MOISTURE_MIN ≤ clamp_soil_moisture v ∧
      clamp_soil_moisture v ≤ MOISTURE_MAX := by
  unfold clamp_soil_moisture MOISTURE_MIN MOISTURE_MAX
  split
  · omega
  · split <;> omega

/-- C9: raw soil-moisture values at or below the calibrated minimum classify
Wet, values at or above the calibrated maximum classify Dry, and the
classification always goes through the clamp to [MOISTURE_MIN, MOISTURE_MAX]
first (classifying the clamped value changes nothing). -/
theorem moisture_boundary_classification (v : Nat) :
    (v ≤ MOISTURE_MIN → moistureLevelFromRaw v = MoistureLevel.Wet) ∧
    (MOISTURE_MAX ≤ v → moistureLevelFromRaw v = MoistureLevel.Dry) ∧
    moistureLevelFromRaw v = moistureLevelFromRaw (clamp_soil_moisture v) := by
  refine ⟨?_, ?_, ?_⟩
  · intro hv
    have hc : clamp_soil_moisture v = MOISTURE_MIN := by
      unfold MOISTURE_MIN at hv
      unfold clamp_soil_moisture MOISTURE_MIN MOISTURE_MAX
      split
      · rfl
      · split <;> omega
    unfold moistureLevelFromRaw
    rw [hc]
    norm_num [MOISTURE_MIN, MOISTURE_MAX]
  · intro hv
    have hc : clamp_soil_moisture v = MOISTURE_MAX := by
      unfold MOISTURE_MAX at hv
      unfold clamp_soil_moisture MOISTURE_MIN MOISTURE_MAX
      split
      · omega
      · split <;> omega
    unfold moistureLevelFromRaw
    rw [hc]
    norm_num [MOISTURE_MIN, MOISTURE_MAX]
  · have hcc : clamp_soil_moisture (clamp_soil_moisture v)
        = clamp_soil_moisture v :=
      clamp_soil_moisture_of_mem _ (clamp_soil_moisture_bounds v).1
        (clamp_soil_moisture_bounds v).2
    unfold moistureLevelFromRaw
    rw [hcc]

/-- Witness for C9 below the minimum and above the maximum. -/
theorem moisture_boundary_classification_witness :
    moistureLevelFromRaw 500 = MoistureLevel.Wet ∧
    moistureLevelFromRaw 4000 = MoistureLevel.Dry :=
  ⟨(moisture_boundary_classification 500).1 (by decide),
    (moisture_boundary_classification 4000).2.1 (by decide)⟩
